import Mathlib

/-!
Verification development for the OpenLR line-location decoder core
(`openlr_dereferencer/decoding/candidate_functions.py`).

The Python functions are shallowly embedded as executable Lean definitions:
* machine floats become an arbitrary linearly ordered ring `α` — the embedded
  code performs only `+`, `-`, `*`, `abs` and order comparisons on them, never
  a division — so every theorem holds over `ℚ` or `ℝ` while concrete
  evaluations run over `ℤ`,
* map entities (`Line`, `Node`) become plain structures; nodes are referred
  to by their `node_id` to break the line/node reference cycle, and node
  lookup goes through an explicit environment function,
* external collaborators that live outside `candidate_functions.py`
  (the map reader's spatial query, `project`, `compute_bearing`,
  `angle_difference`, `score_lrp_candidate`, `shortest_path`, node lookup)
  are fields of an `Env` record, so every theorem quantifies over their
  behaviour,
* the optional `DecoderObserver` is modelled as always attached: each
  function returns, besides its value, the ordered list of observer events
  it would emit (reason strings are dropped from the events),
* the memoisation dictionary of `match_tail` is threaded explicitly as an
  association list with insertion-order semantics, and Python exceptions
  (`LRDecodeError`, `KeyError`, `IndexError`) become an error result type.
-/

namespace OpenLR

/-- Geographic coordinate, as produced by `coords(lrp)` (openlr `Coordinates`). -/
structure Coord (α : Type) where
  lon : α
  lat : α
deriving DecidableEq

/-- A map line (`openlr_dereferencer.maps.abstract.Line`).  `start_node` and
`end_node` hold the `node_id` of the respective node; `length` is the metric
length in metres (the `Line.length` property) while `geometry_length` is the
length of the underlying geometry polyline (`line.geometry.length`), which is
a distinct attribute of the map line. -/
structure Line (α : Type) where
  line_id : ℕ
  start_node : ℕ
  end_node : ℕ
  frc : ℕ
  length : α
  geometry_length : α
deriving DecidableEq

/-- A map node (`openlr_dereferencer.maps.abstract.Node`): its id together
with the materialised results of `incoming_lines()` and `outgoing_lines()`. -/
structure Node (α : Type) where
  node_id : ℕ
  incoming : List (Line α)
  outgoing : List (Line α)
deriving DecidableEq

/-- An openlr `LocationReferencePoint` (the fields used by the decoder core). -/
structure LRP (α : Type) where
  lon : α
  lat : α
  bear : α
  lfrcnp : ℕ
  dnp : α
  frc : ℕ
  fow : ℕ
deriving DecidableEq

/-- A candidate for an LRP: a point on a line (`PointOnLine` data) plus its
score.  In the Python code the score is assigned after construction; here the
structure is built once, with a placeholder score of `0` until
`score_lrp_candidate` has run. -/
structure Candidate (α : Type) where
  line : Line α
  relative_offset : α
  score : α
deriving DecidableEq

/-- Result of `project(line, coords(lrp))`: the relative offset of the
projection together with its `distance_from_start()` and `distance_to_end()`
in metres. -/
structure ProjectionPoint (α : Type) where
  relative_offset : α
  distance_from_start : α
  distance_to_end : α
deriving DecidableEq

/-- A route between two candidates (`decoding.routes.Route`): start candidate,
intermediate lines (`path`), end candidate. -/
structure Route (α : Type) where
  start : Candidate α
  path : List (Line α)
  dest : Candidate α
deriving DecidableEq

/-- Modelled from the spec: `Route.length()` of `decoding/routes.py`, which is
not under `src/`.  Spec section 3: the length is the partial length of the
start line from its offset to its end, plus the intermediate line lengths,
plus the partial length of the end line up to its offset; if both candidates
lie on the same line it is the distance along that line between the two
offsets (the start offset is not required to be the smaller one). -/
def Route.length {α : Type} [LinearOrderedRing α] (r : Route α) : α :=
  if r.start.line.line_id = r.dest.line.line_id then
    |r.dest.relative_offset - r.start.relative_offset| * r.start.line.length
  else
    (1 - r.start.relative_offset) * r.start.line.length
      + (r.path.map Line.length).sum
      + r.dest.relative_offset * r.dest.line.length

/-- The configuration options consumed by `candidate_functions.py`
(`decoding.configuration.Config`). -/
structure Config (α : Type) where
  search_radius : α
  candidate_threshold : α
  max_bear_deviation : α
  bear_dist : α
  tolerated_lfrc : ℕ → ℕ
  max_dnp_deviation : α
  tolerated_dnp_dev : α
  min_score : α

/-- The external collaborators of `candidate_functions.py`: the map reader's
spatial query and node lookup, the geometry helpers of `path_math`, the scorer
of `scoring`, and the A-star search of `maps.a_star`.  `shortest_path`
returning `none` stands for `LRPathNotFoundError`. -/
structure Env (α : Type) where
  find_lines_close_to : Coord α → α → List (Line α)
  get_node : ℕ → Node α
  project : Line α → Coord α → ProjectionPoint α
  compute_bearing : Candidate α → Bool → α → α
  angle_difference : α → α → α
  score_lrp_candidate : LRP α → Candidate α → Bool → α
  shortest_path : ℕ → ℕ → (Line α → Bool) → α → Option (List (Line α))

/-- `coords(lrp)` of `path_math`: the coordinate of an LRP. -/
def coords {α : Type} (lrp : LRP α) : Coord α := ⟨lrp.lon, lrp.lat⟩

/-- Observer events (`DecoderObserver` callbacks), recorded in call order.
Reason strings and tolerance payloads that are pure diagnostics are dropped. -/
inductive Event (α : Type) where
  | on_candidate_rejected_frc (lrp : LRP α) (candidate : Candidate α)
  | on_candidate_rejected_bearing (lrp : LRP α) (candidate : Candidate α)
      (bearing bear_diff : α)
  | on_candidate_rejected (lrp : LRP α) (candidate : Candidate α)
  | on_candidate_found (lrp : LRP α) (candidate : Candidate α)
  | on_candidates_found (lrp : LRP α) (candidates : List (Candidate α))
  | on_no_candidates_found (lrp : LRP α)
  | on_route_success (lrp1 lrp2 : LRP α) (c_from c_to : Candidate α) (route : Route α)
  | on_route_fail (lrp1 lrp2 : LRP α) (c_from c_to : Candidate α)
  | on_route_fail_length (lrp1 lrp2 : LRP α) (c_from c_to : Candidate α) (route : Route α)
      (len minlen maxlen : α)
  | on_matching_fail (lrp1 lrp2 : LRP α) (candidates next_candidates : List (Candidate α))
deriving DecidableEq

/-- `is_invalid_node(node)`: a node is invalid (a mid-road connector) when it
has exactly (1 incoming, 1 outgoing) or (2 incoming, 2 outgoing) lines and the
set of all endpoint nodes of those lines has exactly 3 elements.  The Python
set of `Node` objects is modelled as a `Finset` of node ids. -/
def is_invalid_node {α : Type} (node : Node α) : Bool :=
  let incoming_lines := node.incoming
  let outgoing_lines := node.outgoing
  if (incoming_lines.length = 1 ∧ outgoing_lines.length = 1) ∨
      (incoming_lines.length = 2 ∧ outgoing_lines.length = 2) then
    let s1 : Finset ℕ :=
      incoming_lines.foldl (fun s l => insert l.end_node (insert l.start_node s)) ∅
    let unique_nodes : Finset ℕ :=
      outgoing_lines.foldl (fun s l => insert l.end_node (insert l.start_node s)) s1
    decide (unique_nodes.card = 3)
  else
    false

/-- `is_valid_node(node)`: the exact negation of `is_invalid_node`. -/
def is_valid_node {α : Type} (node : Node α) : Bool :=
  !is_invalid_node node

section Decoder

variable {α : Type} [LinearOrderedRing α] [DecidableEq α]

/-- The endpoint-snapping / de-duplication step of `make_candidates`
(lines 30-53 of `candidate_functions.py`): returns the possibly snapped
relative offset, or `none` when the candidate is discarded in favour of a
neighbouring line's candidate. -/
def snapped_reloff (env : Env α) (config : Config α) (lrp : LRP α) (line : Line α)
    (is_last_lrp : Bool) : Option α :=
  let point_on_line := env.project line (coords lrp)
  if is_last_lrp = false then
    if |point_on_line.distance_from_start| ≤ config.candidate_threshold ∧
        is_valid_node (env.get_node line.start_node) = true then
      some 0
    else if |point_on_line.distance_to_end| ≤ config.candidate_threshold ∧
        is_valid_node (env.get_node line.end_node) = true then
      none
    else
      some point_on_line.relative_offset
  else
    if |point_on_line.distance_to_end| ≤ config.candidate_threshold ∧
        is_valid_node (env.get_node line.end_node) = true then
      some 1
    else if point_on_line.distance_from_start ≤ config.candidate_threshold ∧
        is_valid_node (env.get_node line.start_node) = true then
      none
    else
      some point_on_line.relative_offset

/-- `make_candidates(lrp, line, config, observer, is_last_lrp, geo_tool)`:
yields at most one candidate for the given line, together with the observer
events it emits.  Mirrors the source: degenerate-geometry discard, projection
and snapping (`snapped_reloff`), no-partial-line check, FRC gate, bearing
gate, score gate. -/
def make_candidates (env : Env α) (config : Config α) (lrp : LRP α) (line : Line α)
    (is_last_lrp : Bool) : Option (Candidate α) × List (Event α) :=
  if line.geometry_length = 0 then
    (none, [])
  else
    match snapped_reloff env config lrp line is_last_lrp with
    | none => (none, [])
    | some reloff =>
      if (is_last_lrp = true ∧ reloff ≤ 0) ∨ (is_last_lrp = false ∧ 1 ≤ reloff) then
        (none, [])
      else
        let candidate0 : Candidate α := ⟨line, reloff, 0⟩
        let bearing := env.compute_bearing candidate0 is_last_lrp config.bear_dist
        let bear_diff := env.angle_difference bearing lrp.bear
        if config.tolerated_lfrc lrp.lfrcnp < line.frc then
          (none, [.on_candidate_rejected_frc lrp candidate0])
        else if config.max_bear_deviation < |bear_diff| then
          (none, [.on_candidate_rejected_bearing lrp candidate0 bearing bear_diff])
        else
          let score := env.score_lrp_candidate lrp candidate0 is_last_lrp
          let candidate : Candidate α := ⟨line, reloff, score⟩
          if score < config.min_score then
            (none, [.on_candidate_rejected lrp candidate])
          else
            (some candidate, [.on_candidate_found lrp candidate])

/-- `nominate_candidates(lrp, reader, config, observer, is_last_lrp, geo_tool)`:
runs `make_candidates` over every line returned by the spatial query and
collects the surviving candidates and all emitted events, in order. -/
def nominate_candidates (env : Env α) (config : Config α) (lrp : LRP α)
    (is_last_lrp : Bool) : List (Candidate α) × List (Event α) :=
  (env.find_lines_close_to (coords lrp) config.search_radius).foldl
    (fun acc line =>
      let mc := make_candidates env config lrp line is_last_lrp
      (acc.1 ++ mc.1.toList, acc.2 ++ mc.2))
    ([], [])

/-- `get_candidate_route(start, dest, lfrc, maxlen, geo_tool)`: same-line fast
path, otherwise the shortest path between the end node of the start line and
the start node of the dest line, with the line filter `line.frc <= lfrc`;
`none` when the path search raises `LRPathNotFoundError`. -/
def get_candidate_route (env : Env α) (start dest : Candidate α) (lfrc : ℕ)
    (maxlen : α) : Option (Route α) :=
  if start.line.line_id = dest.line.line_id then
    some ⟨start, [], dest⟩
  else
    match env.shortest_path start.line.end_node dest.line.start_node
        (fun line => decide (line.frc ≤ lfrc)) maxlen with
    | some path => some ⟨start, path, dest⟩
    | none => none

/-- `handleCandidatePair(lrps, candidates, observer, lowest_frc, minlen,
maxlen, geo_tool)`: resolve the route between two candidates and reject it
when its length lies outside `[minlen, maxlen]`.  The returned list is the
sequence of observer events, in order: `on_route_fail` when no path exists;
`on_route_success` as soon as a route is found and, when the length check then
fails, `on_route_fail_length` followed by `on_route_fail`. -/
def handleCandidatePair (env : Env α) (current next_lrp : LRP α)
    (source dest : Candidate α) (lowest_frc : ℕ) (minlen maxlen : α) :
    Option (Route α) × List (Event α) :=
  match get_candidate_route env source dest lowest_frc maxlen with
  | none => (none, [.on_route_fail current next_lrp source dest])
  | some route =>
    if route.length < minlen ∨ maxlen < route.length then
      (none, [.on_route_success current next_lrp source dest route,
              .on_route_fail_length current next_lrp source dest route
                route.length minlen maxlen,
              .on_route_fail current next_lrp source dest])
    else
      (some route, [.on_route_success current next_lrp source dest route])

/-- The lower end of the DNP envelope computed by `match_tail` (line 183):
`(1 - config.max_dnp_deviation) * current.dnp - config.tolerated_dnp_dev`. -/
def dnp_minlen (config : Config α) (current : LRP α) : α :=
  (1 - config.max_dnp_deviation) * current.dnp - config.tolerated_dnp_dev

/-- The upper end of the DNP envelope computed by `match_tail` (line 184):
`(1 + config.max_dnp_deviation) * current.dnp + config.tolerated_dnp_dev`. -/
def dnp_maxlen (config : Config α) (current : LRP α) : α :=
  (1 + config.max_dnp_deviation) * current.dnp + config.tolerated_dnp_dev

end Decoder

/-- Keys of the `match_tail` memoisation dictionary.  The Python dictionary
holds tuples of three distinct shapes, which can never collide: the context
key `(current_lrp, candidate)`, the pair key `(c_from, c_to)`, and the key
`(depth, candidate)` used by the membership test on line 174. -/
inductive CacheKey (α : Type) where
  | ctx (lrp : LRP α) (candidate : Candidate α)
  | pair (c_from c_to : Candidate α)
  | depthCtx (depth : ℕ) (candidate : Candidate α)
deriving DecidableEq

/-- Route lists, the values memoised by `match_tail` (`None` records a
failure). -/
abbrev Routes (α : Type) := List (Route α)

/-- The memoisation dictionary, as an association list in insertion order. -/
abbrev Cache (α : Type) := List (CacheKey α × Option (Routes α))

/-- The exceptions `match_tail` can raise: `LRDecodeError`, plus the `KeyError`
that reading a missing dictionary key would raise and the `IndexError` of
`candidates[0]` / `tail[0]` on an empty list. -/
inductive DecodeError where
  | lrDecodeError
  | keyError
  | indexError
deriving DecidableEq

/-- Outcome of a `match_tail` call: the returned route list or the raised
exception. -/
inductive DecodeResult (α : Type) where
  | ok (routes : Routes α)
  | err (e : DecodeError)
deriving DecidableEq

/-- Full result of a `match_tail` call: outcome, the dictionary as the call
leaves it, and the observer events emitted during the call. -/
abbrev MTResult (α : Type) := DecodeResult α × Cache α × List (Event α)

section Matcher

variable {α : Type} [LinearOrderedRing α] [DecidableEq α]

/-- Dictionary lookup: `cache[key]` / `key in cache`. -/
def cache_lookup : Cache α → CacheKey α → Option (Option (Routes α))
  | [], _ => none
  | (k, v) :: rest, key => if k = key then some v else cache_lookup rest key

/-- Dictionary assignment `cache[key] = value`: overwrite in place when the
key is present, else append. -/
def cache_insert : Cache α → CacheKey α → Option (Routes α) → Cache α
  | [], key, value => [(key, value)]
  | (k, v) :: rest, key, value =>
    if k = key then (key, value) :: rest else (k, v) :: cache_insert rest key value

/-- The sort key of the candidate-pair sort: `pair[0].score + pair[1].score`. -/
def pair_score (p : Candidate α × Candidate α) : α :=
  p.1.score + p.2.score

/-- Stable descending insertion for `sort_pairs_desc`: the new element goes in
front of the first element whose score sum is not larger, so that elements
with equal score sums keep their original relative order — the behaviour of
Python's stable `list.sort(key=..., reverse=True)`. -/
def insert_pair_desc (p : Candidate α × Candidate α) :
    List (Candidate α × Candidate α) → List (Candidate α × Candidate α)
  | [] => [p]
  | q :: rest =>
    if pair_score q ≤ pair_score p then p :: q :: rest else q :: insert_pair_desc p rest

/-- Stable sort of the candidate pairs by descending score sum
(`pairs.sort(key=lambda pair: pair[0].score + pair[1].score, reverse=True)`). -/
def sort_pairs_desc : List (Candidate α × Candidate α) → List (Candidate α × Candidate α)
  | [] => []
  | p :: rest => insert_pair_desc p (sort_pairs_desc rest)

/-- `itertools.product(candidates, next_candidates)` in row-major order. -/
def list_product (xs ys : List (Candidate α)) : List (Candidate α × Candidate α) :=
  xs.foldr (fun a acc => (ys.map fun b => (a, b)) ++ acc) []

/-- The candidate-pair loop of `match_tail` (lines 208-235).  `recurse` is the
recursive `match_tail` call for the remaining tail.  For each pair in order:
a cached failure raises `LRDecodeError` and a cached route list is returned
(lines 209-215); otherwise `handleCandidatePair` runs, a `None` route is
cached as a pair failure and the loop continues; on a route, the last-LRP case
returns `[route]`, otherwise the recursion resolves the rest of the tail —
its `LRDecodeError` is caught and the loop continues, any other exception
propagates.  When the loop falls through, `on_matching_fail` is emitted, a
single-candidate context failure is cached, and `LRDecodeError` is raised. -/
def try_pairs
    (recurse : LRP α → List (Candidate α) → List (LRP α) → ℕ → Cache α → MTResult α)
    (env : Env α) (config : Config α) (current : LRP α)
    (candidates : List (Candidate α)) (c0 : Candidate α) (next_lrp : LRP α)
    (rest : List (LRP α)) (last_lrp : Bool) (next_candidates : List (Candidate α))
    (lfrc : ℕ) (minlen maxlen : α) (depth : ℕ) :
    List (Candidate α × Candidate α) → Cache α → List (Event α) → MTResult α
  | [], cache, events =>
    let events2 := events ++ [.on_matching_fail current next_lrp candidates next_candidates]
    let cache2 :=
      if candidates.length = 1 then cache_insert cache (.ctx current c0) none else cache
    (.err .lrDecodeError, cache2, events2)
  | (c_from, c_to) :: more_pairs, cache, events =>
    match cache_lookup cache (.pair c_from c_to) with
    | some none => (.err .lrDecodeError, cache, events)
    | some (some v) => (.ok v, cache, events)
    | none =>
      let hres := handleCandidatePair env current next_lrp c_from c_to lfrc minlen maxlen
      let events2 := events ++ hres.2
      match hres.1 with
      | none =>
        try_pairs recurse env config current candidates c0 next_lrp rest last_lrp
          next_candidates lfrc minlen maxlen depth more_pairs
          (cache_insert cache (.pair c_from c_to) none) events2
      | some route =>
        if last_lrp then
          (.ok [route], cache, events2)
        else
          let sub := recurse next_lrp [c_to] rest (depth + 1) cache
          match sub.1 with
          | .ok sub_routes =>
            let full_route := route :: sub_routes
            let cache2 :=
              if candidates.length = 1 then
                cache_insert sub.2.1 (.ctx current c0) (some full_route)
              else sub.2.1
            (.ok full_route, cache2, events2 ++ sub.2.2)
          | .err .lrDecodeError =>
            try_pairs recurse env config current candidates c0 next_lrp rest last_lrp
              next_candidates lfrc minlen maxlen depth more_pairs sub.2.1
              (events2 ++ sub.2.2)
          | .err e => (.err e, sub.2.1, events2 ++ sub.2.2)

/-- One unfolding of `match_tail` (lines 174-235), with `recurse` standing for
the recursive call on the remaining tail.  Line 174: the memo membership test
uses the key `(depth, candidates[0])` while the value is read at
`(current, candidates[0])` — both are modelled verbatim, the read of a missing
key being Python's `KeyError`.  Then the DNP envelope, the candidates for
`tail[0]`, the failure on an empty candidate list, the pair sort, and the pair
loop follow the source line by line. -/
def match_tail_step (env : Env α) (config : Config α)
    (recurse : LRP α → List (Candidate α) → List (LRP α) → ℕ → Cache α → MTResult α)
    (current : LRP α) (candidates : List (Candidate α)) (tail : List (LRP α))
    (depth : ℕ) (cache : Cache α) : MTResult α :=
  match candidates with
  | [] => (.err .indexError, cache, [])
  | c0 :: _ =>
    if candidates.length = 1 ∧ (cache_lookup cache (.depthCtx depth c0)).isSome = true then
      match cache_lookup cache (.ctx current c0) with
      | none => (.err .keyError, cache, [])
      | some none => (.err .lrDecodeError, cache, [])
      | some (some v) => (.ok v, cache, [])
    else
      match tail with
      | [] => (.err .indexError, cache, [])
      | next_lrp :: rest =>
        let last_lrp : Bool := rest.isEmpty
        let minlen := dnp_minlen config current
        let maxlen := dnp_maxlen config current
        let lfrc := config.tolerated_lfrc current.lfrcnp
        let nom := nominate_candidates env config next_lrp last_lrp
        let next_candidates := nom.1
        if next_candidates = [] then
          (.err .lrDecodeError, cache, nom.2 ++ [.on_no_candidates_found next_lrp])
        else
          let events0 := nom.2 ++ [.on_candidates_found next_lrp next_candidates]
          let pairs := sort_pairs_desc (list_product candidates next_candidates)
          try_pairs recurse env config current candidates c0 next_lrp rest last_lrp
            next_candidates lfrc minlen maxlen depth pairs cache events0

/-- `match_tail` with an explicit recursion bound.  The Python recursion
terminates because every recursive call shortens `tail` by one; the wrapper
`match_tail` passes `tail.length` as the bound, and every recursive call keeps
the invariant `fuel = tail.length`, so the continuation installed at fuel `0`
is unreachable: with fuel `0` the tail is `[]` and `match_tail_step` stops at
the `tail[0]` `IndexError` before any recursion. -/
def match_tail_fuel (env : Env α) (config : Config α) :
    ℕ → LRP α → List (Candidate α) → List (LRP α) → ℕ → Cache α → MTResult α
  | 0 => match_tail_step env config (fun _ _ _ _ cache => (.err .indexError, cache, []))
  | fuel + 1 => match_tail_step env config (match_tail_fuel env config fuel)

/-- `match_tail(current, candidates, tail, reader, config, observer, geo_tool,
depth, cache)`.  The Python signature defaults `depth` to `0` and `cache` to a
process-wide mutable `{}`; both are explicit arguments here, and the sharing
of the default dictionary across top-level calls is modelled by threading the
dictionary a call returns into the next call. -/
def match_tail (env : Env α) (config : Config α) (current : LRP α)
    (candidates : List (Candidate α)) (tail : List (LRP α)) (depth : ℕ)
    (cache : Cache α) : MTResult α :=
  match_tail_fuel env config tail.length current candidates tail depth cache

end Matcher

/-! Concrete fixtures used by the witnesses, counterexamples and failing-input
evaluations, all over `α := ℤ`.  They describe a two-line map: `lineX` from
node 1 to node 2 and `lineY` from node 3 to node 4, with no path between
them. -/

/-- A node with no incident lines: `is_valid_node` classifies it as valid. -/
def bare_node (i : ℕ) : Node ℤ := ⟨i, [], []⟩

/-- Test line from node 1 to node 2, 100 m long. -/
def lineX : Line ℤ := ⟨1, 1, 2, 0, 100, 100⟩

/-- Test line from node 3 to node 4, 100 m long. -/
def lineY : Line ℤ := ⟨2, 3, 4, 0, 100, 100⟩

/-- First test LRP, with `dnp` 50 m. -/
def lrp0 : LRP ℤ := ⟨0, 0, 0, 0, 50, 0, 0⟩

/-- Second (last) test LRP. -/
def lrp1 : LRP ℤ := ⟨1, 0, 0, 0, 0, 0, 0⟩

/-- Candidate for `lrp0` on `lineX` at offset 0, score 9. -/
def candA : Candidate ℤ := ⟨lineX, 0, 9⟩

/-- Candidate that `nominate_candidates` produces for `lrp1` on `lineY`. -/
def candB : Candidate ℤ := ⟨lineY, 1, 8⟩

/-- Candidate that `nominate_candidates` produces for `lrp1` on `lineX`. -/
def candC : Candidate ℤ := ⟨lineX, 1, 5⟩

/-- Permissive test configuration: no snapping (threshold 0), wide DNP
envelope, all FRCs and bearings tolerated. -/
def test_config : Config ℤ :=
  { search_radius := 100
    candidate_threshold := 0
    max_bear_deviation := 180
    bear_dist := 20
    tolerated_lfrc := fun _ => 7
    max_dnp_deviation := 0
    tolerated_dnp_dev := 1000
    min_score := 0 }

/-- Test environment over the two-line map: the spatial query returns
`[lineY, lineX]`, every projection lands at the far end of the line (relative
offset 1, 50 m from either end), bearings always agree, `lineY` scores 8 and
every other line 5, and no shortest path exists between distinct lines. -/
def test_env : Env ℤ :=
  { find_lines_close_to := fun _ _ => [lineY, lineX]
    get_node := bare_node
    project := fun _ _ => ⟨1, 50, 50⟩
    compute_bearing := fun _ _ _ => 0
    angle_difference := fun a b => a - b
    score_lrp_candidate := fun _ c _ => if c.line.line_id = 2 then 8 else 5
    shortest_path := fun _ _ _ _ => none }

/-- The route `match_tail` finds between `candA` and `candC` (same line). -/
def routeAC : Route ℤ := ⟨candA, [], candC⟩

/-- A stand-in cached route list for the context-key evaluation. -/
def routeAA : Route ℤ := ⟨candA, [], candA⟩

/-- Environment whose spatial query finds no lines at all. -/
def empty_env : Env ℤ :=
  { test_env with find_lines_close_to := fun _ _ => [] }

/-- Configuration with a zero-width DNP envelope `[dnp, dnp]`. -/
def tight_config : Config ℤ :=
  { test_config with max_dnp_deviation := 0, tolerated_dnp_dev := 0 }

/-- Configuration whose snapping threshold (60 m) covers the test projections. -/
def snap_config : Config ℤ :=
  { test_config with candidate_threshold := 60 }

/-- Configuration with a 20 m snapping threshold. -/
def mid_config : Config ℤ :=
  { test_config with candidate_threshold := 20 }

/-- Environment whose projection lands near the end of the line
(90 m from the start, 10 m from the end). -/
def env_near_end : Env ℤ :=
  { test_env with project := fun _ _ => ⟨1, 90, 10⟩ }

/-- Environment whose projection lands near the start of the line
(10 m from the start, 90 m from the end). -/
def env_near_start : Env ℤ :=
  { test_env with project := fun _ _ => ⟨0, 10, 90⟩ }

/-- Line with metric `length` 0 but non-degenerate geometry. -/
def lineZ : Line ℤ := ⟨9, 1, 2, 0, 0, 5⟩

/-- Line with degenerate geometry (`geometry_length = 0`). -/
def lineW : Line ℤ := ⟨8, 1, 2, 0, 7, 0⟩

section Lemmas

variable {α : Type} [LinearOrderedRing α] [DecidableEq α]

/-- If the snapping step discards the line, `make_candidates` yields nothing. -/
theorem make_candidates_none_of_snap_none (env : Env α) (config : Config α)
    (lrp : LRP α) (line : Line α) (is_last_lrp : Bool)
    (h : snapped_reloff env config lrp line is_last_lrp = none) :
    (make_candidates env config lrp line is_last_lrp).1 = none := by
  unfold make_candidates
  by_cases hg : line.geometry_length = 0 <;> simp [hg, h]

/-- Any candidate `make_candidates` yields carries exactly the relative offset
the snapping step selected. -/
theorem make_candidates_some_reloff (env : Env α) (config : Config α) (lrp : LRP α)
    (line : Line α) (is_last_lrp : Bool) (c : Candidate α)
    (h : (make_candidates env config lrp line is_last_lrp).1 = some c) :
    snapped_reloff env config lrp line is_last_lrp = some c.relative_offset := by
  unfold make_candidates at h
  by_cases hg : line.geometry_length = 0
  · simp [hg] at h
  · rw [if_neg hg] at h
    cases hs : snapped_reloff env config lrp line is_last_lrp with
    | none => rw [hs] at h; simp at h
    | some reloff =>
      rw [hs] at h
      dsimp only at h
      split_ifs at h
      all_goals simp_all
      rw [← h]

end Lemmas

/-- C1.  The claim asserts that the single-candidate memo lookup of
`match_tail` tests and reads the cache under one and the same key
`(current_lrp, candidates[0])`.  In the source the membership test on line 174
uses the key `(depth, candidates[0])` while the read on line 175 uses
`(current, candidates[0])`; since only `(lrp, candidate)` and
`(candidate, candidate)` keys are ever written, the membership test never
succeeds and a cached context entry is ignored.  Evaluation at the failing
input: the cache holds the context key `(lrp0, candA)` with a route list, yet
`match_tail` (over a map with no lines near `lrp1`) raises `LRDecodeError`
instead of returning the cached list. -/
theorem c1_cache_key_mismatch :
    cache_lookup [(CacheKey.ctx lrp0 candA, some [routeAA])] (.ctx lrp0 candA) =
      some (some [routeAA])
    ∧ (match_tail empty_env test_config lrp0 [candA] [lrp1] 0
        [(CacheKey.ctx lrp0 candA, some [routeAA])]).1 = .err .lrDecodeError := by
  decide

/-- C2.  The claim asserts that a candidate pair cached as a failure is
skipped, the search continuing with the next pair.  In the source (line 212) a
cached pair failure raises `LRDecodeError`, aborting the whole call.
Evaluation at the failing input: with the pair `(candA, candB)` cached as a
failure, `match_tail` raises, although the very same call on an empty cache
skips that pair after recomputing its failure and succeeds with the route to
`candC`. -/
theorem c2_cached_pair_failure_aborts :
    (match_tail test_env test_config lrp0 [candA] [lrp1] 0
        [(CacheKey.pair candA candB, none)]).1 = .err .lrDecodeError
    ∧ (match_tail test_env test_config lrp0 [candA] [lrp1] 0 []).1 = .ok [routeAC] := by
  decide

/-- C3.  The claim asserts that two top-level `match_tail` calls with
identical arguments and the cache left to its default return identical
results.  The source defaults the cache to a mutable `{}` created once per
process, so the second call starts with the dictionary the first call left
behind (modelled here by threading it).  Evaluation: the first call returns
the route list `[routeAC]` and caches the failure of the pair
`(candA, candB)`; the identical second call hits that cached failure and
raises `LRDecodeError`. -/
theorem c3_shared_default_cache :
    (match_tail test_env test_config lrp0 [candA] [lrp1] 0 []).1 = .ok [routeAC]
    ∧ (match_tail test_env test_config lrp0 [candA] [lrp1] 0
        ((match_tail test_env test_config lrp0 [candA] [lrp1] 0 []).2.1)).1 =
          .err .lrDecodeError := by
  decide

/-- C6.  When both candidates lie on lines with the same `line_id`,
`get_candidate_route` returns the route with an empty intermediate-line list,
for every `lfrc` and `maxlen` and every environment — in particular for every
behaviour of the path search, which is therefore never consulted. -/
theorem c6_same_line_fast_path {α : Type} [LinearOrderedRing α] [DecidableEq α]
    (env : Env α) (start dest : Candidate α) (lfrc : ℕ) (maxlen : α)
    (h : start.line.line_id = dest.line.line_id) :
    get_candidate_route env start dest lfrc maxlen = some ⟨start, [], dest⟩ := by
  simp [get_candidate_route, h]

/-- Witness for C6 at a concrete same-line candidate pair. -/
theorem c6_same_line_fast_path_witness :
    get_candidate_route test_env candA candC 7 0 = some ⟨candA, [], candC⟩ :=
  c6_same_line_fast_path test_env candA candC 7 0 rfl

/-- Counterexample to C9 as stated: `lineZ` has `length = 0` (metres), but its
geometry is not degenerate (`geometry_length = 5`), so `make_candidates` does
project the LRP onto it and produces a candidate — the discard on line 26 of
the source tests `line.geometry.length`, not `line.length`. -/
theorem c9_zero_length_counterexample :
    lineZ.length = 0
    ∧ (make_candidates test_env test_config lrp0 lineZ true).1 =
        some ⟨lineZ, 1, 5⟩ := by
  decide

/-- C9 as amended: `make_candidates` produces no candidate — and emits no
event — for a line whose geometry length is zero; the discard happens before
the projection, so the result is independent of the whole environment, the
projection function included. -/
theorem c9_zero_geometry_discard {α : Type} [LinearOrderedRing α] [DecidableEq α]
    (env : Env α) (config : Config α) (lrp : LRP α) (line : Line α)
    (is_last_lrp : Bool) (h : line.geometry_length = 0) :
    make_candidates env config lrp line is_last_lrp = (none, []) := by
  simp [make_candidates, h]

/-- Witness for the amended C9 at a concrete degenerate-geometry line. -/
theorem c9_zero_geometry_discard_witness :
    make_candidates test_env test_config lrp0 lineW false = (none, []) :=
  c9_zero_geometry_discard test_env test_config lrp0 lineW false rfl

/-- C4.  Part one: a route returned by `handleCandidatePair`, called with the
DNP envelope `match_tail` computes (`dnp_minlen` / `dnp_maxlen` are the bounds
`match_tail_step` passes, definitionally), has its length inside that
envelope.  Part two: a route that `get_candidate_route` finds whose length
falls outside the envelope makes `handleCandidatePair` return `none`. -/
theorem c4_dnp_envelope {α : Type} [LinearOrderedRing α] [DecidableEq α]
    (env : Env α) (config : Config α) (current next_lrp : LRP α)
    (c_from c_to : Candidate α) (lfrc : ℕ) :
    (∀ r : Route α,
        (handleCandidatePair env current next_lrp c_from c_to lfrc
            (dnp_minlen config current) (dnp_maxlen config current)).1 = some r →
          dnp_minlen config current ≤ r.length ∧ r.length ≤ dnp_maxlen config current)
    ∧ (∀ r : Route α,
        get_candidate_route env c_from c_to lfrc (dnp_maxlen config current) = some r →
          (r.length < dnp_minlen config current ∨ dnp_maxlen config current < r.length) →
          (handleCandidatePair env current next_lrp c_from c_to lfrc
              (dnp_minlen config current) (dnp_maxlen config current)).1 = none) := by
  constructor
  · intro r h
    unfold handleCandidatePair at h
    cases hgr : get_candidate_route env c_from c_to lfrc (dnp_maxlen config current) with
    | none => rw [hgr] at h; simp at h
    | some route =>
      rw [hgr] at h
      dsimp only at h
      by_cases hlen : route.length < dnp_minlen config current ∨
          dnp_maxlen config current < route.length
      · rw [if_pos hlen] at h; simp at h
      · rw [if_neg hlen] at h
        push_neg at hlen
        simp only [Option.some.injEq] at h
        rw [← h]
        exact hlen
  · intro r h hout
    unfold handleCandidatePair
    rw [h]
    dsimp only
    rw [if_pos hout]

/-- Witness for C4: with the permissive envelope `[-950, 1050]` the 100 m
route is returned and lies inside the envelope; with the zero-width envelope
`[50, 50]` the same 100 m route is found and rejected. -/
theorem c4_dnp_envelope_witness :
    (handleCandidatePair test_env lrp0 lrp1 candA candC 7
        (dnp_minlen test_config lrp0) (dnp_maxlen test_config lrp0)).1 = some routeAC
    ∧ (dnp_minlen test_config lrp0 ≤ routeAC.length
        ∧ routeAC.length ≤ dnp_maxlen test_config lrp0)
    ∧ get_candidate_route test_env candA candC 7 (dnp_maxlen tight_config lrp0) =
        some routeAC
    ∧ (handleCandidatePair test_env lrp0 lrp1 candA candC 7
        (dnp_minlen tight_config lrp0) (dnp_maxlen tight_config lrp0)).1 = none :=
  ⟨by decide,
   (c4_dnp_envelope test_env test_config lrp0 lrp1 candA candC 7).1 routeAC (by decide),
   by decide,
   (c4_dnp_envelope test_env tight_config lrp0 lrp1 candA candC 7).2 routeAC
     (by decide) (by decide)⟩

/-- C10.  As soon as `get_candidate_route` finds a route,
`handleCandidatePair` emits `on_route_success` first — before the DNP length
check — and when the length then fails the check, the full event sequence is
`on_route_success`, `on_route_fail_length`, `on_route_fail` and the result is
`none`. -/
theorem c10_route_success_before_length_check {α : Type} [LinearOrderedRing α]
    [DecidableEq α] (env : Env α) (current next_lrp : LRP α)
    (c_from c_to : Candidate α) (lfrc : ℕ) (minlen maxlen : α) (r : Route α)
    (h : get_candidate_route env c_from c_to lfrc maxlen = some r) :
    (handleCandidatePair env current next_lrp c_from c_to lfrc minlen maxlen).2.head? =
      some (.on_route_success current next_lrp c_from c_to r)
    ∧ (r.length < minlen ∨ maxlen < r.length →
        handleCandidatePair env current next_lrp c_from c_to lfrc minlen maxlen =
          (none, [.on_route_success current next_lrp c_from c_to r,
                  .on_route_fail_length current next_lrp c_from c_to r
                    r.length minlen maxlen,
                  .on_route_fail current next_lrp c_from c_to])) := by
  unfold handleCandidatePair
  rw [h]
  dsimp only
  constructor
  · by_cases hlen : r.length < minlen ∨ maxlen < r.length
    · rw [if_pos hlen]; rfl
    · rw [if_neg hlen]; rfl
  · intro hout
    rw [if_pos hout]

/-- Witness for C10: the 100 m route is found under `maxlen = 40`, so
`on_route_success` is emitted first and the length rejection follows. -/
theorem c10_route_success_before_length_check_witness :
    (handleCandidatePair test_env lrp0 lrp1 candA candC 7 0 40).2.head? =
      some (.on_route_success lrp0 lrp1 candA candC routeAC)
    ∧ handleCandidatePair test_env lrp0 lrp1 candA candC 7 0 40 =
        (none, [.on_route_success lrp0 lrp1 candA candC routeAC,
                .on_route_fail_length lrp0 lrp1 candA candC routeAC
                  routeAC.length 0 40,
                .on_route_fail lrp0 lrp1 candA candC]) :=
  ⟨(c10_route_success_before_length_check test_env lrp0 lrp1 candA candC 7 0 40
      routeAC (by decide)).1,
   (c10_route_success_before_length_check test_env lrp0 lrp1 candA candC 7 0 40
      routeAC (by decide)).2 (by decide)⟩

/-- C8.  When `nominate_candidates` yields no candidates for `tail[0]`,
`match_tail` raises `LRDecodeError`, and its event trace ends with
`on_no_candidates_found(next_lrp)` right after the nomination events.  The
`hmemo` hypothesis states that the (dead) memo branch of line 174 does not
fire for the head candidate. -/
theorem c8_no_candidates_raises {α : Type} [LinearOrderedRing α] [DecidableEq α]
    (env : Env α) (config : Config α) (current : LRP α) (c0 : Candidate α)
    (cs : List (Candidate α)) (next_lrp : LRP α) (rest : List (LRP α)) (depth : ℕ)
    (cache : Cache α)
    (hmemo : cache_lookup cache (.depthCtx depth c0) = none)
    (hnom : (nominate_candidates env config next_lrp rest.isEmpty).1 = []) :
    (match_tail env config current (c0 :: cs) (next_lrp :: rest) depth cache).1 =
      .err .lrDecodeError
    ∧ (match_tail env config current (c0 :: cs) (next_lrp :: rest) depth cache).2.2 =
        (nominate_candidates env config next_lrp rest.isEmpty).2 ++
          [.on_no_candidates_found next_lrp] := by
  unfold match_tail
  simp only [List.length_cons]
  simp [match_tail_fuel, match_tail_step, hmemo, hnom]

/-- Witness for C8 over the environment whose spatial query is empty. -/
theorem c8_no_candidates_raises_witness :
    (match_tail empty_env test_config lrp0 [candA] [lrp1] 0 []).1 =
      .err .lrDecodeError
    ∧ (match_tail empty_env test_config lrp0 [candA] [lrp1] 0 []).2.2 =
        [.on_no_candidates_found lrp1] := by
  have h := c8_no_candidates_raises empty_env test_config lrp0 candA [] lrp1 [] 0 []
    (by decide) (by decide)
  exact ⟨h.1, h.2.trans (by decide)⟩

/-- The snapping step for a non-last LRP, with the branch on `is_last_lrp`
resolved. -/
theorem snapped_reloff_false_eq {α : Type} [LinearOrderedRing α] [DecidableEq α]
    (env : Env α) (config : Config α) (lrp : LRP α) (line : Line α) :
    snapped_reloff env config lrp line false =
      (if |(env.project line (coords lrp)).distance_from_start| ≤
            config.candidate_threshold
          ∧ is_valid_node (env.get_node line.start_node) = true then
        some 0
      else if |(env.project line (coords lrp)).distance_to_end| ≤
            config.candidate_threshold
          ∧ is_valid_node (env.get_node line.end_node) = true then
        none
      else
        some (env.project line (coords lrp)).relative_offset) :=
  rfl

/-- The snapping step for the last LRP, with the branch on `is_last_lrp`
resolved. -/
theorem snapped_reloff_true_eq {α : Type} [LinearOrderedRing α] [DecidableEq α]
    (env : Env α) (config : Config α) (lrp : LRP α) (line : Line α) :
    snapped_reloff env config lrp line true =
      (if |(env.project line (coords lrp)).distance_to_end| ≤
            config.candidate_threshold
          ∧ is_valid_node (env.get_node line.end_node) = true then
        some 1
      else if (env.project line (coords lrp)).distance_from_start ≤
            config.candidate_threshold
          ∧ is_valid_node (env.get_node line.start_node) = true then
        none
      else
        some (env.project line (coords lrp)).relative_offset) :=
  rfl

/-- C5.  The endpoint snapping and discard policy of `make_candidates`.  With
`is_last_lrp = false`: a projection within `candidate_threshold` of the start
of the line whose start node is a valid junction makes every produced
candidate carry relative offset 0; otherwise a projection within threshold of
the end of the line whose end node is a valid junction produces no candidate.
With `is_last_lrp = true`, symmetrically: snap to offset 1 near a valid end
node, else discard near a valid start node.  Distances of a projection are
nonnegative; the nonnegativity hypotheses let the `abs` of the source be
dropped where the claim speaks of the plain distance. -/
theorem c5_snap_policy {α : Type} [LinearOrderedRing α] [DecidableEq α]
    (env : Env α) (config : Config α) (lrp : LRP α) (line : Line α) :
    (0 ≤ (env.project line (coords lrp)).distance_from_start →
      (env.project line (coords lrp)).distance_from_start ≤ config.candidate_threshold →
      is_valid_node (env.get_node line.start_node) = true →
      ∀ c : Candidate α, (make_candidates env config lrp line false).1 = some c →
        c.relative_offset = 0)
    ∧ (¬(|(env.project line (coords lrp)).distance_from_start| ≤
            config.candidate_threshold
          ∧ is_valid_node (env.get_node line.start_node) = true) →
      0 ≤ (env.project line (coords lrp)).distance_to_end →
      (env.project line (coords lrp)).distance_to_end ≤ config.candidate_threshold →
      is_valid_node (env.get_node line.end_node) = true →
      (make_candidates env config lrp line false).1 = none)
    ∧ (0 ≤ (env.project line (coords lrp)).distance_to_end →
      (env.project line (coords lrp)).distance_to_end ≤ config.candidate_threshold →
      is_valid_node (env.get_node line.end_node) = true →
      ∀ c : Candidate α, (make_candidates env config lrp line true).1 = some c →
        c.relative_offset = 1)
    ∧ (¬(|(env.project line (coords lrp)).distance_to_end| ≤ config.candidate_threshold
          ∧ is_valid_node (env.get_node line.end_node) = true) →
      (env.project line (coords lrp)).distance_from_start ≤ config.candidate_threshold →
      is_valid_node (env.get_node line.start_node) = true →
      (make_candidates env config lrp line true).1 = none) := by
  refine ⟨?_, ?_, ?_, ?_⟩
  · intro h0 h1 hv c hc
    have hs := make_candidates_some_reloff env config lrp line false c hc
    rw [snapped_reloff_false_eq] at hs
    rw [if_pos ⟨by rw [abs_of_nonneg h0]; exact h1, hv⟩] at hs
    exact (Option.some.inj hs).symm
  · intro hno h0 h1 hv
    apply make_candidates_none_of_snap_none
    rw [snapped_reloff_false_eq, if_neg hno]
    rw [if_pos ⟨by rw [abs_of_nonneg h0]; exact h1, hv⟩]
  · intro h0 h1 hv c hc
    have hs := make_candidates_some_reloff env config lrp line true c hc
    rw [snapped_reloff_true_eq] at hs
    rw [if_pos ⟨by rw [abs_of_nonneg h0]; exact h1, hv⟩] at hs
    exact (Option.some.inj hs).symm
  · intro hno hd0 hv
    apply make_candidates_none_of_snap_none
    rw [snapped_reloff_true_eq, if_neg hno]
    rw [if_pos ⟨hd0, hv⟩]

/-- Witness for C5, exercising all four branches of the policy: snap to 0 and
snap to 1 under the 60 m threshold, discard near the valid end node for the
non-last role and near the valid start node for the last role under the 20 m
threshold. -/
theorem c5_snap_policy_witness :
    ((make_candidates test_env snap_config lrp0 lineX false).1 = some ⟨lineX, 0, 5⟩
      ∧ (⟨lineX, 0, 5⟩ : Candidate ℤ).relative_offset = 0)
    ∧ (make_candidates env_near_end mid_config lrp0 lineX false).1 = none
    ∧ ((make_candidates test_env snap_config lrp0 lineX true).1 = some ⟨lineX, 1, 5⟩
      ∧ (⟨lineX, 1, 5⟩ : Candidate ℤ).relative_offset = 1)
    ∧ (make_candidates env_near_start mid_config lrp0 lineX true).1 = none :=
  ⟨⟨by decide, (c5_snap_policy test_env snap_config lrp0 lineX).1 (by decide)
      (by decide) (by decide) ⟨lineX, 0, 5⟩ (by decide)⟩,
   (c5_snap_policy env_near_end mid_config lrp0 lineX).2.1 (by decide) (by decide)
     (by decide) (by decide),
   ⟨by decide, (c5_snap_policy test_env snap_config lrp0 lineX).2.2.1 (by decide)
      (by decide) (by decide) ⟨lineX, 1, 5⟩ (by decide)⟩,
   (c5_snap_policy env_near_start mid_config lrp0 lineX).2.2.2 (by decide)
     (by decide) (by decide)⟩

/-- Folding the endpoint-insertion step over a list of lines yields the union
of the initial set with the start nodes and the end nodes of the lines. -/
theorem endpoint_fold_eq {α : Type} (l : List (Line α)) (s : Finset ℕ) :
    l.foldl (fun s li => insert li.end_node (insert li.start_node s)) s =
      s ∪ (l.map Line.start_node).toFinset ∪ (l.map Line.end_node).toFinset := by
  induction l generalizing s with
  | nil => simp
  | cons a t ih =>
    simp only [List.foldl_cons, List.map_cons, List.toFinset_cons]
    rw [ih]
    ext x
    simp only [Finset.mem_union, Finset.mem_insert, List.mem_toFinset]
    tauto

/-- The set of endpoint nodes of all lines incident to a node, stated
independently of the fold in `is_invalid_node`. -/
def endpoint_nodes {α : Type} (n : Node α) : Finset ℕ :=
  ((n.incoming ++ n.outgoing).map Line.start_node).toFinset ∪
    ((n.incoming ++ n.outgoing).map Line.end_node).toFinset

/-- The two endpoint folds of `is_invalid_node` compute `endpoint_nodes`. -/
theorem endpoint_fold_append {α : Type} (n : Node α) :
    n.outgoing.foldl (fun s l => insert l.end_node (insert l.start_node s))
      (n.incoming.foldl (fun s l => insert l.end_node (insert l.start_node s)) ∅) =
    endpoint_nodes n := by
  rw [endpoint_fold_eq, endpoint_fold_eq]
  unfold endpoint_nodes
  rw [List.map_append, List.map_append, List.toFinset_append, List.toFinset_append]
  ext x
  simp only [Finset.mem_union, Finset.not_mem_empty]
  tauto

/-- C7.  `is_valid_node` is the exact negation of `is_invalid_node`, and
`is_invalid_node` holds exactly when the node has (1 incoming, 1 outgoing) or
(2 incoming, 2 outgoing) lines and the union of the endpoint nodes of those
lines has cardinality 3.  In the (2, 2) case the cardinality-3 condition is
precisely the code's rendering of the bidirectional-continuation pattern: the
node itself plus exactly two distinct neighbours; the code checks nothing
beyond it.  Every other configuration is valid. -/
theorem c7_node_classification {α : Type} (n : Node α) :
    is_valid_node n = !is_invalid_node n
    ∧ (is_invalid_node n = true ↔
        (((n.incoming.length = 1 ∧ n.outgoing.length = 1) ∨
          (n.incoming.length = 2 ∧ n.outgoing.length = 2))
          ∧ (endpoint_nodes n).card = 3)) := by
  refine ⟨rfl, ?_⟩
  simp only [is_invalid_node]
  by_cases hlen : ((n.incoming.length = 1 ∧ n.outgoing.length = 1) ∨
      (n.incoming.length = 2 ∧ n.outgoing.length = 2))
  · rw [if_pos hlen, endpoint_fold_append]
    simp only [decide_eq_true_eq]
    exact ⟨fun h => ⟨hlen, h⟩, fun h => h.2⟩
  · rw [if_neg hlen]
    simp [hlen]

end OpenLR
